import Mathlib

/-!
Verification development for the `pai_browser_use` browser-automation tool
adapter.  The Python source is shallowly embedded: every CDP round-trip that
can raise is modelled as an `Except String` field of an environment record
(one field per call site, in source order), mutable session state is passed
explicitly, and each tool body is translated to a total Lean function that
mirrors the source's control flow (try/except becomes matching on those
`Except` fields).
-/

/-- Browser session state.  The `_session.py` module is not in the sources;
its fields are reconstructed from how every tool in `tools/` reads and
writes them (`current_url`, `current_title`, `navigation_history`,
`viewport`, `last_screenshot_timestamp`) and from spec section 3. -/
structure BrowserSession where
  current_url : String
  current_title : String
  navigation_history : List String
  viewport_width : Nat
  viewport_height : Nat
  last_screenshot_timestamp : Nat
deriving DecidableEq

/-- `get_browser_session` from `_tools.py`: read the ambient context-variable
slot; a `none` slot raises `RuntimeError("No browser session available in
current context")`, modelled as `Except.error`. -/
def get_browser_session (slot : Option BrowserSession) : Except String BrowserSession :=
  match slot with
  | none => Except.error "No browser session available in current context"
  | some s => Except.ok s

/-- The `wrapper` closure produced by `build_tool` in `_tools.py`:
`token = ctx.set(browser_session); try: return await func(...); finally:
ctx.reset(token)`.  The wrapped `func` is modelled as a function of the
ambient slot it can observe, which may itself raise; the returned pair is
(outcome of the call, slot value after the invocation). -/
def build_tool_wrapper {α : Type} (browser_session : BrowserSession)
    (func : Option BrowserSession → Except String α)
    (slot : Option BrowserSession) : Except String α × Option BrowserSession :=
  let token := slot
  match func (some browser_session) with
  | Except.ok v => (Except.ok v, token)
  | Except.error e => (Except.error e, token)

/-- Outcome of `httpx.get(cdp_url)` followed by `raise_for_status()` and
`response.json()` in `toolset.py`: the transport or status check raised, or
the body was not JSON, or it parsed to an object (a string-to-string field
map suffices for the one field the code reads). -/
inductive FetchOutcome where
  | netError (msg : String)
  | notJson (text : String)
  | json (fields : List (String × String))
deriving DecidableEq

/-- Rendering of the Python `f"Invalid CDP response. {data=}"` message; the
exact formatting of the parsed object is irrelevant to the claims, only that
a `ValueError` carrying this text is raised. -/
def invalidCdpDataMsg (fields : List (String × String)) : String :=
  "Invalid CDP response. data=" ++ String.intercalate "," (fields.map (fun p => p.1))

/-- `str.startswith`, modelled on the character lists of the two strings so
that it evaluates inside the kernel. -/
def strStartsWith (s pre : String) : Bool :=
  pre.data.isPrefixOf s.data

/-- `get_cdp_websocket_url` from `toolset.py`, with the HTTP layer as an
oracle `fetch` from URL to `FetchOutcome`.  A raised exception is
`Except.error`. -/
def get_cdp_websocket_url (fetch : String → FetchOutcome) (cdp_url : String) :
    Except String String :=
  if strStartsWith cdp_url "ws://" || strStartsWith cdp_url "wss://" then
    Except.ok cdp_url
  else
    match fetch cdp_url with
    | FetchOutcome.netError m => Except.error m
    | FetchOutcome.notJson t => Except.error ("Invalid CDP response. " ++ t)
    | FetchOutcome.json fields =>
      match fields.lookup "webSocketDebuggerUrl" with
      | none => Except.error (invalidCdpDataMsg fields)
      | some v => Except.ok v

/-- Whether an `Except` is the raised-exception case. -/
def isError {ε α : Type} : Except ε α → Bool
  | Except.error _ => true
  | Except.ok _ => false

/-- The toolset adapter's held connection handle (`self._cdp_client`),
abstracted to an opaque identifier. -/
structure ToolsetState where
  cdp_client : Option Nat
deriving DecidableEq

/-- Outcome of `await self._cdp_client.__aexit__(*args)`. -/
structure AexitEnv where
  client_aexit : Except String Unit

/-- `BrowserUseToolset.__aexit__` from `toolset.py`: if a client handle is
held, tear it down and clear the handle; otherwise do nothing.  Returns
(raised exception if any, new state, whether a teardown call was made). -/
def toolset_aexit (env : AexitEnv) (st : ToolsetState) :
    Except String Unit × ToolsetState × Bool :=
  match st.cdp_client with
  | some _ =>
    match env.client_aexit with
    | Except.ok _ => (Except.ok (), { cdp_client := none }, true)
    | Except.error e => (Except.error e, st, true)
  | none => (Except.ok (), st, false)

/-- Modelled from the spec: the settings-resolution wiring of
`BrowserUseToolset.__init__` (constructor arguments for `max_retries`,
tool-name prefix and `always_use_new_page`) is absent from the sources —
`src/pai_browser_use/toolset.py` has only the `cdp_url` parameter while
`_config.py` and `tests/test_config.py` reference the full wiring.  Per the
configuration-surface spec, an explicit constructor argument takes
precedence over the environment-resolved value, which takes precedence over
the library default. -/
def resolve_setting {α : Type} (ctor_arg : Option α) (env_value : Option α)
    (library_default : α) : α :=
  match ctor_arg with
  | some v => v
  | none =>
    match env_value with
    | some w => w
    | none => library_default

/-- Modelled from the spec: resolved retry count; library default 3. -/
def used_max_retries (ctor_arg env_value : Option Nat) : Nat :=
  resolve_setting ctor_arg env_value 3

/-- Modelled from the spec: resolved tool-name prefix; library default is
the toolset id. -/
def used_name_pfx (ctor_arg env_value : Option String) (toolset_id : String) : String :=
  resolve_setting ctor_arg env_value toolset_id

/-- Modelled from the spec: resolved page-reuse policy; library default
`False`. -/
def used_always_use_new_page (ctor_arg env_value : Option Bool) : Bool :=
  resolve_setting ctor_arg env_value false

/-- C1: `get_browser_session()` with no tool invocation in progress (ambient
slot `none`) raises the scope `RuntimeError`; during an invocation wrapped
by `build_tool` it returns exactly the session the wrapper installed; and
the wrapper restores the slot to `none` on every exit path, including when
the wrapped function raises. -/
theorem bridge_context_scope :
    (get_browser_session none
      = Except.error "No browser session available in current context")
    ∧ (∀ s : BrowserSession,
        (build_tool_wrapper s (fun slot => get_browser_session slot) none).1
          = Except.ok s)
    ∧ (∀ (s : BrowserSession) (f : Option BrowserSession → Except String Nat),
        (build_tool_wrapper s f none).2 = none) := by
  refine ⟨rfl, fun s => rfl, fun s f => ?_⟩
  cases h : f (some s) <;> simp [build_tool_wrapper, h]

/-- C4: a configured endpoint starting with `ws://` or `wss://` is returned
verbatim with no network call (the result does not depend on the HTTP
oracle); any other endpoint is fetched and the `webSocketDebuggerUrl` field
of the JSON body is returned, and resolution raises when the HTTP call
fails, when the body is not JSON, or when the field is absent. -/
theorem cdp_url_resolution (cdp_url : String) (fetch : String → FetchOutcome) :
    ((strStartsWith cdp_url "ws://" = true ∨ strStartsWith cdp_url "wss://" = true) →
      get_cdp_websocket_url fetch cdp_url = Except.ok cdp_url
      ∧ ∀ fetch2 : String → FetchOutcome,
          get_cdp_websocket_url fetch2 cdp_url = get_cdp_websocket_url fetch cdp_url)
    ∧ (strStartsWith cdp_url "ws://" = false → strStartsWith cdp_url "wss://" = false →
      (∀ m, fetch cdp_url = FetchOutcome.netError m →
        get_cdp_websocket_url fetch cdp_url = Except.error m)
      ∧ (∀ t, fetch cdp_url = FetchOutcome.notJson t →
        isError (get_cdp_websocket_url fetch cdp_url) = true)
      ∧ (∀ fields, fetch cdp_url = FetchOutcome.json fields →
        (fields.lookup "webSocketDebuggerUrl" = none →
          isError (get_cdp_websocket_url fetch cdp_url) = true)
        ∧ (∀ v, fields.lookup "webSocketDebuggerUrl" = some v →
          get_cdp_websocket_url fetch cdp_url = Except.ok v))) := by
  constructor
  · intro hws
    have hcond : (strStartsWith cdp_url "ws://" || strStartsWith cdp_url "wss://") = true := by
      rcases hws with h | h <;> simp [h]
    exact ⟨by simp [get_cdp_websocket_url, hcond], fun fetch2 => by
      simp [get_cdp_websocket_url, hcond]⟩
  · intro h1 h2
    have hcond : (strStartsWith cdp_url "ws://" || strStartsWith cdp_url "wss://") = false := by
      simp [h1, h2]
    refine ⟨fun m hm => ?_, fun t ht => ?_, fun fields hf => ?_⟩
    · simp [get_cdp_websocket_url, hcond, hm]
    · simp [get_cdp_websocket_url, hcond, ht, isError]
    · refine ⟨fun hnone => ?_, fun v hv => ?_⟩
      · simp [get_cdp_websocket_url, hcond, hf, hnone, isError]
      · simp [get_cdp_websocket_url, hcond, hf, hv]

/-- C4 witness at concrete inputs. -/
theorem cdp_url_resolution_witness :
    get_cdp_websocket_url (fun _ => FetchOutcome.netError "boom") "ws://h:9222"
      = Except.ok "ws://h:9222"
    ∧ get_cdp_websocket_url (fun _ => FetchOutcome.json [("webSocketDebuggerUrl", "ws://d")])
        "http://h:9222/json/version" = Except.ok "ws://d" := by
  have h1 := (cdp_url_resolution "ws://h:9222" (fun _ => FetchOutcome.netError "boom")).1
    (Or.inl (by decide))
  have h2 := ((cdp_url_resolution "http://h:9222/json/version"
      (fun _ => FetchOutcome.json [("webSocketDebuggerUrl", "ws://d")])).2
    (by decide) (by decide)).2.2 [("webSocketDebuggerUrl", "ws://d")] rfl
  exact ⟨h1.1, h2.2 "ws://d" rfl⟩

/-- C9: `__aexit__` clears the held handle (when the client teardown
completes), and a second exit on an already-closed toolset performs no
teardown call, raises nothing, and leaves the state unchanged. -/
theorem toolset_aexit_idempotent (env : AexitEnv) (st : ToolsetState) :
    (env.client_aexit = Except.ok () →
      ((toolset_aexit env st).2.1.cdp_client = none))
    ∧ (st.cdp_client = none →
      toolset_aexit env st = (Except.ok (), st, false)) := by
  constructor
  · intro hok
    cases hc : st.cdp_client
    · simp [toolset_aexit, hc, hc]
    · simp [toolset_aexit, hc, hok]
  · intro hnone
    simp [toolset_aexit, hnone]

/-- C9 witness: exit then exit again on a concrete toolset. -/
theorem toolset_aexit_idempotent_witness :
    (toolset_aexit ⟨Except.ok ()⟩ ⟨some 7⟩).2.1.cdp_client = none
    ∧ toolset_aexit ⟨Except.ok ()⟩ ⟨none⟩ = (Except.ok (), ⟨none⟩, false) := by
  exact ⟨(toolset_aexit_idempotent ⟨Except.ok ()⟩ ⟨some 7⟩).1 rfl,
    (toolset_aexit_idempotent ⟨Except.ok ()⟩ ⟨none⟩).2 rfl⟩

/-- C5: for each of `max_retries`, the tool-name prefix and
`always_use_new_page`, the value used is the explicit constructor argument
when given, else the environment-resolved value when set, else the library
default (3, the toolset id, `False`). -/
theorem settings_precedence :
    (∀ (envv : Option Nat) (v : Nat), used_max_retries (some v) envv = v)
    ∧ (∀ w : Nat, used_max_retries none (some w) = w)
    ∧ used_max_retries none none = 3
    ∧ (∀ (envv : Option String) (tid v : String), used_name_pfx (some v) envv tid = v)
    ∧ (∀ w tid : String, used_name_pfx none (some w) tid = w)
    ∧ (∀ tid : String, used_name_pfx none none tid = tid)
    ∧ (∀ (envv : Option Bool) (v : Bool), used_always_use_new_page (some v) envv = v)
    ∧ (∀ w : Bool, used_always_use_new_page none (some w) = w)
    ∧ used_always_use_new_page none none = false := by
  refine ⟨fun envv v => rfl, fun w => rfl, rfl, fun envv tid v => rfl,
    fun w tid => rfl, fun tid => rfl, fun envv v => rfl, fun w => rfl, rfl⟩

/-- `NavigationResult` from `tools/_types.py` (module absent from the
sources; fields and their optionality reconstructed from every constructor
call in `tools/navigation.py`). -/
structure NavigationResult where
  status : String
  url : String
  title : Option String
  error_message : Option String
deriving DecidableEq

/-- A Python exception inside `navigate_to_url`: `except TimeoutError` is
matched before `except Exception`, so the two are distinguished. -/
inductive PyExc where
  | timeoutErr
  | exc (msg : String)
deriving DecidableEq

/-- The JSON object produced by the `Runtime.evaluate` expression that reads
`window.location.href` and `document.title`, after `json.loads`. -/
structure PageInfoJs where
  url : String
  title : String
deriving DecidableEq

/-- Outcomes of the three awaited calls in `navigate_to_url`, in source
order: `Page.enable`, `Page.navigate`, and the `Runtime.evaluate` plus
`json.loads` block. -/
structure NavigateEnv where
  page_enable : Except PyExc Unit
  page_navigate : Except PyExc Unit
  eval_page_info : Except PyExc PageInfoJs

/-- The two `except` clauses of `navigate_to_url`: `TimeoutError` maps to
status `timeout` with the f-string message, any other exception to status
`error` with `str(e)`. -/
def navigate_exc_result (url : String) (timeout : Nat) : PyExc → NavigationResult
  | PyExc.timeoutErr =>
    { status := "timeout", url := url, title := none,
      error_message := some ("Navigation timeout after " ++ toString timeout ++ "ms") }
  | PyExc.exc m =>
    { status := "error", url := url, title := none, error_message := some m }

/-- `navigate_to_url` from `tools/navigation.py`. -/
def navigate_to_url (env : NavigateEnv) (url : String) (timeout : Nat)
    (s : BrowserSession) : NavigationResult × BrowserSession :=
  match env.page_enable with
  | Except.error e => (navigate_exc_result url timeout e, s)
  | Except.ok _ =>
    match env.page_navigate with
    | Except.error e => (navigate_exc_result url timeout e, s)
    | Except.ok _ =>
      match env.eval_page_info with
      | Except.error e => (navigate_exc_result url timeout e, s)
      | Except.ok info =>
        ({ status := "success", url := info.url, title := some info.title,
           error_message := none },
         { s with current_url := info.url, current_title := info.title,
                  navigation_history := s.navigation_history ++ [info.url] })

/-- One entry of `Page.getNavigationHistory`'s `entries` list. -/
structure HistEntry where
  id : Nat
deriving DecidableEq

/-- The response of `Page.getNavigationHistory`. -/
structure NavHistory where
  currentIndex : Nat
  entries : List HistEntry
deriving DecidableEq

/-- Outcomes of the awaited calls in `go_back` / `go_forward`, in source
order: `Page.getNavigationHistory`, `Page.navigateToHistoryEntry`, and the
`Runtime.evaluate` plus `json.loads` block. -/
structure HistoryNavEnv where
  get_history : Except String NavHistory
  navigate_to_entry : Except String Unit
  eval_page_info : Except String PageInfoJs

/-- The generic `except Exception` result of the history-navigation tools:
status `error`, the session's current URL, and `str(e)`. -/
def nav_error_result (s : BrowserSession) (m : String) : NavigationResult :=
  { status := "error", url := s.current_url, title := none, error_message := some m }

/-- `go_back` from `tools/navigation.py`.  The `entries[current_index - 1]`
subscript raises `IndexError` when out of range, which the `except` clause
turns into a status-`error` result. -/
def go_back (env : HistoryNavEnv) (s : BrowserSession) :
    NavigationResult × BrowserSession :=
  match env.get_history with
  | Except.error e => (nav_error_result s e, s)
  | Except.ok history =>
    if history.currentIndex > 0 then
      match history.entries[history.currentIndex - 1]? with
      | none => (nav_error_result s "list index out of range", s)
      | some _entry =>
        match env.navigate_to_entry with
        | Except.error e => (nav_error_result s e, s)
        | Except.ok _ =>
          match env.eval_page_info with
          | Except.error e => (nav_error_result s e, s)
          | Except.ok info =>
            ({ status := "success", url := info.url, title := some info.title,
               error_message := none },
             { s with current_url := info.url, current_title := info.title })
    else
      ({ status := "error", url := s.current_url, title := none,
         error_message := some "No previous page in history" }, s)

/-- `go_forward` from `tools/navigation.py`.  The boundary test
`current_index < len(entries) - 1` agrees with truncated `Nat` subtraction
at every value, since both sides reject everything when `entries` is empty. -/
def go_forward (env : HistoryNavEnv) (s : BrowserSession) :
    NavigationResult × BrowserSession :=
  match env.get_history with
  | Except.error e => (nav_error_result s e, s)
  | Except.ok history =>
    if history.currentIndex < history.entries.length - 1 then
      match history.entries[history.currentIndex + 1]? with
      | none => (nav_error_result s "list index out of range", s)
      | some _entry =>
        match env.navigate_to_entry with
        | Except.error e => (nav_error_result s e, s)
        | Except.ok _ =>
          match env.eval_page_info with
          | Except.error e => (nav_error_result s e, s)
          | Except.ok info =>
            ({ status := "success", url := info.url, title := some info.title,
               error_message := none },
             { s with current_url := info.url, current_title := info.title })
    else
      ({ status := "error", url := s.current_url, title := none,
         error_message := some "No next page in history" }, s)

/-- Outcomes of the awaited calls in `reload_page`, in source order:
`Page.reload` and the `Runtime.evaluate` plus `json.loads` block. -/
structure ReloadEnv where
  page_reload : Except String Unit
  eval_page_info : Except String PageInfoJs

/-- `reload_page` from `tools/navigation.py`. -/
def reload_page (env : ReloadEnv) (ignore_cache : Bool) (s : BrowserSession) :
    NavigationResult × BrowserSession :=
  match env.page_reload with
  | Except.error e => (nav_error_result s e, s)
  | Except.ok _ =>
    match env.eval_page_info with
    | Except.error e => (nav_error_result s e, s)
    | Except.ok info =>
      ({ status := "success", url := info.url, title := some info.title,
         error_message := none },
       { s with current_url := info.url, current_title := info.title })

/-- The box returned by `DOM.getBoxModel`'s `border` quad, `border[0]` to
`border[7]` in order (`[x1,y1, x2,y2, x3,y3, x4,y4]`); page coordinates are
modelled as rationals. -/
structure BorderQuad where
  p0 : Rat
  p1 : Rat
  p2 : Rat
  p3 : Rat
  p4 : Rat
  p5 : Rat
  p6 : Rat
  p7 : Rat
deriving DecidableEq

/-- The `element_info` payload built by `click_element`. -/
structure ElementInfo where
  x : Rat
  y : Rat
  width : Rat
  height : Rat
deriving DecidableEq

/-- `ClickResult` from `tools/_types.py` (module absent; fields from use). -/
structure ClickResult where
  status : String
  selector : String
  element_info : Option ElementInfo
  error_message : Option String
deriving DecidableEq

/-- Outcomes of the six awaited calls in `click_element`, in source order. -/
structure ClickEnv where
  dom_enable : Except String Unit
  get_document : Except String Nat
  query_selector : Except String (Option Nat)
  get_box_model : Except String BorderQuad
  mouse_pressed : Except String Unit
  mouse_released : Except String Unit

/-- The `except Exception` result of `click_element`. -/
def click_error_result (selector m : String) : ClickResult :=
  { status := "error", selector := selector, element_info := none,
    error_message := some m }

/-- `click_element` from `tools/interaction.py`.  Python's
`if not node_id or node_id == 0` treats both a missing key and id `0` as a
selector miss. -/
def click_element (env : ClickEnv) (selector : String) : ClickResult :=
  match env.dom_enable with
  | Except.error e => click_error_result selector e
  | Except.ok _ =>
  match env.get_document with
  | Except.error e => click_error_result selector e
  | Except.ok _rid =>
  match env.query_selector with
  | Except.error e => click_error_result selector e
  | Except.ok node_id =>
  match node_id with
  | none =>
    { status := "not_found", selector := selector, element_info := none,
      error_message := some ("Element not found: " ++ selector) }
  | some 0 =>
    { status := "not_found", selector := selector, element_info := none,
      error_message := some ("Element not found: " ++ selector) }
  | some (_n + 1) =>
  match env.get_box_model with
  | Except.error e => click_error_result selector e
  | Except.ok border =>
  match env.mouse_pressed with
  | Except.error e => click_error_result selector e
  | Except.ok _ =>
  match env.mouse_released with
  | Except.error e => click_error_result selector e
  | Except.ok _ =>
    { status := "success", selector := selector,
      element_info := some
        { x := (border.p0 + border.p4) / 2, y := (border.p1 + border.p5) / 2,
          width := border.p4 - border.p0, height := border.p5 - border.p1 },
      error_message := none }

/-- `TypeTextResult` from `tools/_types.py` (module absent; fields from
use). -/
structure TypeTextResult where
  status : String
  selector : String
  text : String
  error_message : Option String
deriving DecidableEq

/-- Outcomes of the awaited calls in `type_text` beyond its inner
`click_element` call: the `_is_mac` platform probe, the four
`dispatchKeyEvent` select-all/delete calls, and the per-character
`insertText` loop. -/
structure TypeTextEnv where
  click : ClickEnv
  is_mac : Except String Bool
  key_events : Except String Unit
  insert_text : Except String Unit

/-- The tail of `type_text` after the optional clear: the `insertText` loop
and the success result. -/
def type_text_insert (env : TypeTextEnv) (selector text : String) : TypeTextResult :=
  match env.insert_text with
  | Except.error e =>
    { status := "error", selector := selector, text := text, error_message := some e }
  | Except.ok _ =>
    { status := "success", selector := selector, text := text, error_message := none }

/-- `type_text` from `tools/interaction.py`: click to focus (a non-success
click short-circuits with that click's status and message), optionally
select-all and delete, then insert the text. -/
def type_text (env : TypeTextEnv) (selector text : String) (clear_first : Bool) :
    TypeTextResult :=
  let click_result := click_element env.click selector
  if click_result.status = "success" then
    if clear_first then
      match env.is_mac with
      | Except.error e =>
        { status := "error", selector := selector, text := text, error_message := some e }
      | Except.ok _is_mac =>
        match env.key_events with
        | Except.error e =>
          { status := "error", selector := selector, text := text, error_message := some e }
        | Except.ok _ => type_text_insert env selector text
    else type_text_insert env selector text
  else
    { status := click_result.status, selector := selector, text := text,
      error_message := click_result.error_message }

/-- `ExecuteScriptResult` from `tools/_types.py` (module absent; fields from
use); the returned JavaScript value is abstracted to a string. -/
structure ExecuteScriptResult where
  status : String
  result : Option String
  error_message : Option String
deriving DecidableEq

/-- The `Runtime.evaluate` response as read by `execute_javascript`:
an optional `exceptionDetails` entry (already rendered by `str`) and the
optional `result.value`. -/
structure EvalOutcome where
  exceptionDetails : Option String
  value : Option String
deriving DecidableEq

/-- Outcome of the one awaited call in `execute_javascript`. -/
structure EvalEnv where
  evaluate : Except String EvalOutcome

/-- `execute_javascript` from `tools/interaction.py`. -/
def execute_javascript (env : EvalEnv) (script : String) : ExecuteScriptResult :=
  match env.evaluate with
  | Except.error e => { status := "error", result := none, error_message := some e }
  | Except.ok r =>
    match r.exceptionDetails with
    | some det => { status := "error", result := none, error_message := some det }
    | none => { status := "success", result := r.value, error_message := none }

/-- `PageInfo` from `tools/_types.py` (module absent; fields from use). -/
structure PageInfo where
  url : String
  title : String
  ready_state : String
  viewport_width : Nat
  viewport_height : Nat
deriving DecidableEq

/-- The JSON object read by `get_page_info`'s evaluate expression. -/
structure PageInfoJsFull where
  url : String
  title : String
  readyState : String
deriving DecidableEq

/-- Outcome of the one awaited call in `get_page_info`. -/
structure PageInfoEnv where
  evaluate : Except String PageInfoJsFull

/-- `get_page_info` from `tools/state.py`.  Unlike every status-returning
tool, its body has no `try`/`except`, so a failing protocol call propagates
out of the tool; hence the `Except` result type. -/
def get_page_info (env : PageInfoEnv) (s : BrowserSession) :
    Except String (PageInfo × BrowserSession) :=
  match env.evaluate with
  | Except.error e => Except.error e
  | Except.ok info =>
    Except.ok
      ({ url := info.url, title := info.title, ready_state := info.readyState,
         viewport_width := s.viewport_width, viewport_height := s.viewport_height },
       { s with current_url := info.url, current_title := info.title })

/-- `pydantic_ai.BinaryContent`: one image segment attached to a screenshot
result. -/
structure BinaryContent where
  data : List Nat
  media_type : String
deriving DecidableEq

/-- `pydantic_ai.messages.ToolReturn`: a result record plus the attached
multi-modal content list. -/
structure ToolReturn (α : Type) where
  return_value : α
  content : List BinaryContent
deriving DecidableEq

/-- `img_format.split("/")[1] if "/" in img_format else img_format`:
`splitOn` yields at least two parts exactly when the separator occurs. -/
def format_suffix (img_format : String) : String :=
  match img_format.splitOn "/" with
  | _ :: second :: _ => second
  | _ => img_format

/-- `ScreenshotResult` from `tools/_types.py` (module absent; fields from
use, unset constructor fields taking their declared defaults). -/
structure ScreenshotResult where
  status : String
  url : String
  segments_count : Nat
  truncated : Bool
  format : Option String
  full_page : Option Bool
  error_message : Option String
deriving DecidableEq

/-- Effects available to `take_screenshot`, in source order:
`Page.captureScreenshot` plus `base64.b64decode` as one fallible step, the
`split_image_data` segmenter (its module `_image_utils.py` is absent from
the sources, so it stays an oracle taking the image bytes, `max_height`,
`overlap` and media type), and `time.time()`. -/
structure ScreenshotEnv where
  capture : Except String (List Nat)
  segmenter : List Nat → Nat → Nat → String → Except String (List BinaryContent)
  now : Nat

/-- `take_screenshot` from `tools/state.py`: capture, segment with
`max_height=4096, overlap=50`, keep at most 20 segments recording
truncation, stamp the session, and attach the segments; any exception maps
to a status-`error` result with empty content. -/
def take_screenshot (env : ScreenshotEnv) (full_page : Bool) (img_format : String)
    (s : BrowserSession) : ToolReturn ScreenshotResult × BrowserSession :=
  match env.capture with
  | Except.error e =>
    ({ return_value :=
        { status := "error", url := s.current_url, segments_count := 0,
          truncated := false, format := none, full_page := none,
          error_message := some e },
       content := [] }, s)
  | Except.ok image_bytes =>
    match env.segmenter image_bytes 4096 50 img_format with
    | Except.error e =>
      ({ return_value :=
          { status := "error", url := s.current_url, segments_count := 0,
            truncated := false, format := none, full_page := none,
            error_message := some e },
         content := [] }, s)
    | Except.ok segments0 =>
      let truncated : Bool := decide (segments0.length > 20)
      let segments := if truncated then segments0.take 20 else segments0
      ({ return_value :=
          { status := "success", url := s.current_url,
            segments_count := segments.length, truncated := truncated,
            format := some (format_suffix img_format),
            full_page := some full_page, error_message := none },
         content := segments },
       { s with last_screenshot_timestamp := env.now })

/-- The `element_info` payload built by `take_element_screenshot`. -/
structure ElemBox where
  x : Rat
  y : Rat
  width : Rat
  height : Rat
deriving DecidableEq

/-- `ElementScreenshotResult` from `tools/_types.py` (module absent; fields
from use). -/
structure ElementScreenshotResult where
  status : String
  selector : String
  segments_count : Nat
  element_info : Option ElemBox
  error_message : Option String
deriving DecidableEq

/-- Effects available to `take_element_screenshot`, in source order; the
segmenter oracle here takes no overlap argument because the source call
leaves `split_image_data`'s overlap at its default. -/
structure ElementShotEnv where
  dom_enable : Except String Unit
  get_document : Except String Nat
  query_selector : Except String (Option Nat)
  get_box_model : Except String BorderQuad
  capture : Except String (List Nat)
  segmenter : List Nat → Nat → String → Except String (List BinaryContent)

/-- The `except Exception` result of `take_element_screenshot`. -/
def element_shot_error (selector m : String) : ToolReturn ElementScreenshotResult :=
  { return_value :=
      { status := "error", selector := selector, segments_count := 0,
        element_info := none, error_message := some m },
    content := [] }

/-- `take_element_screenshot` from `tools/state.py`. -/
def take_element_screenshot (env : ElementShotEnv) (selector img_format : String) :
    ToolReturn ElementScreenshotResult :=
  match env.dom_enable with
  | Except.error e => element_shot_error selector e
  | Except.ok _ =>
  match env.get_document with
  | Except.error e => element_shot_error selector e
  | Except.ok _rid =>
  match env.query_selector with
  | Except.error e => element_shot_error selector e
  | Except.ok node_id =>
  match node_id with
  | none =>
    { return_value :=
        { status := "not_found", selector := selector, segments_count := 0,
          element_info := none,
          error_message := some ("Element not found: " ++ selector) },
      content := [] }
  | some 0 =>
    { return_value :=
        { status := "not_found", selector := selector, segments_count := 0,
          element_info := none,
          error_message := some ("Element not found: " ++ selector) },
      content := [] }
  | some (_n + 1) =>
  match env.get_box_model with
  | Except.error e => element_shot_error selector e
  | Except.ok b =>
    let x := min (min b.p0 b.p2) (min b.p4 b.p6)
    let y := min (min b.p1 b.p3) (min b.p5 b.p7)
    let w := max (max b.p0 b.p2) (max b.p4 b.p6) - x
    let h := max (max b.p1 b.p3) (max b.p5 b.p7) - y
    match env.capture with
    | Except.error e => element_shot_error selector e
    | Except.ok image_bytes =>
    match env.segmenter image_bytes 4096 img_format with
    | Except.error e => element_shot_error selector e
    | Except.ok segments0 =>
      let segments := if segments0.length > 20 then segments0.take 20 else segments0
      { return_value :=
          { status := "success", selector := selector,
            segments_count := segments.length,
            element_info := some { x := x, y := y, width := w, height := h },
            error_message := none },
        content := segments }

/-- A concrete session used to instantiate witnesses. -/
def sessionW : BrowserSession :=
  { current_url := "https://example.com", current_title := "Example",
    navigation_history := ["https://example.com"], viewport_width := 1280,
    viewport_height := 720, last_screenshot_timestamp := 0 }

/-- C3: when the protocol history reports `currentIndex = 0`, `go_back`
returns status `error` with the no-previous-page message and leaves the
session (current URL, title, navigation history) untouched. -/
theorem go_back_at_history_start (env : HistoryNavEnv) (s : BrowserSession)
    (h : NavHistory) (hh : env.get_history = Except.ok h)
    (hi : h.currentIndex = 0) :
    go_back env s =
      ({ status := "error", url := s.current_url, title := none,
         error_message := some "No previous page in history" }, s) := by
  simp [go_back, hh, hi]

/-- A history-navigation environment already at the oldest entry. -/
def histEnvAtStart : HistoryNavEnv :=
  { get_history := Except.ok { currentIndex := 0, entries := [{ id := 1 }] },
    navigate_to_entry := Except.ok (),
    eval_page_info := Except.ok { url := "u", title := "t" } }

/-- C3 witness at a concrete environment and session. -/
theorem go_back_at_history_start_witness :
    go_back histEnvAtStart sessionW =
      ({ status := "error", url := "https://example.com", title := none,
         error_message := some "No previous page in history" }, sessionW) := by
  have h := go_back_at_history_start histEnvAtStart sessionW
    { currentIndex := 0, entries := [{ id := 1 }] } rfl rfl
  simpa [sessionW] using h

/-- On every path, `go_back` either leaves the session unchanged or only
overwrites its current URL and title. -/
theorem go_back_session_shape (env : HistoryNavEnv) (s : BrowserSession) :
    (go_back env s).2 = s ∨ ∃ info : PageInfoJs,
      (go_back env s).2
        = { s with current_url := info.url, current_title := info.title } := by
  rcases env with ⟨gh, nte, epi⟩
  cases gh with
  | error e => exact Or.inl rfl
  | ok history =>
    by_cases hc : history.currentIndex > 0
    · cases hg : history.entries[history.currentIndex - 1]? with
      | none => exact Or.inl (by simp [go_back, hc, hg])
      | some ent =>
        cases nte with
        | error e => exact Or.inl (by simp [go_back, hc, hg])
        | ok u =>
          cases epi with
          | error e => exact Or.inl (by simp [go_back, hc, hg])
          | ok info => exact Or.inr ⟨info, by simp [go_back, hc, hg]⟩
    · exact Or.inl (by simp [go_back, hc])

/-- On every path, `go_forward` either leaves the session unchanged or only
overwrites its current URL and title. -/
theorem go_forward_session_shape (env : HistoryNavEnv) (s : BrowserSession) :
    (go_forward env s).2 = s ∨ ∃ info : PageInfoJs,
      (go_forward env s).2
        = { s with current_url := info.url, current_title := info.title } := by
  rcases env with ⟨gh, nte, epi⟩
  cases gh with
  | error e => exact Or.inl rfl
  | ok history =>
    by_cases hc : history.currentIndex < history.entries.length - 1
    · cases hg : history.entries[history.currentIndex + 1]? with
      | none => exact Or.inl (by simp [go_forward, hc, hg])
      | some ent =>
        cases nte with
        | error e => exact Or.inl (by simp [go_forward, hc, hg])
        | ok u =>
          cases epi with
          | error e => exact Or.inl (by simp [go_forward, hc, hg])
          | ok info => exact Or.inr ⟨info, by simp [go_forward, hc, hg]⟩
    · exact Or.inl (by simp [go_forward, hc])

/-- On every path, `reload_page` either leaves the session unchanged or
only overwrites its current URL and title. -/
theorem reload_page_session_shape (env : ReloadEnv) (ignore_cache : Bool)
    (s : BrowserSession) :
    (reload_page env ignore_cache s).2 = s ∨ ∃ info : PageInfoJs,
      (reload_page env ignore_cache s).2
        = { s with current_url := info.url, current_title := info.title } := by
  rcases env with ⟨pr, epi⟩
  cases pr with
  | error e => exact Or.inl rfl
  | ok u =>
    cases epi with
    | error e => exact Or.inl rfl
    | ok info => exact Or.inr ⟨info, rfl⟩

/-- C8: a successful `navigate_to_url` overwrites the session URL and title
with the page-reported values and appends the reported URL to the history;
successful `go_back`, `go_forward` and `reload_page` overwrite URL and
title only; and no execution of `go_back`, `go_forward` or `reload_page`
ever modifies the navigation history. -/
theorem navigation_state_update :
    (∀ (env : NavigateEnv) (url : String) (timeout : Nat) (s : BrowserSession)
        (info : PageInfoJs),
      env.page_enable = Except.ok () → env.page_navigate = Except.ok () →
      env.eval_page_info = Except.ok info →
      navigate_to_url env url timeout s
        = ({ status := "success", url := info.url, title := some info.title,
             error_message := none },
           { s with current_url := info.url, current_title := info.title,
                    navigation_history := s.navigation_history ++ [info.url] }))
    ∧ (∀ (env : HistoryNavEnv) (s : BrowserSession) (h : NavHistory)
        (ent : HistEntry) (info : PageInfoJs),
      env.get_history = Except.ok h → h.currentIndex > 0 →
      h.entries[h.currentIndex - 1]? = some ent →
      env.navigate_to_entry = Except.ok () →
      env.eval_page_info = Except.ok info →
      go_back env s
        = ({ status := "success", url := info.url, title := some info.title,
             error_message := none },
           { s with current_url := info.url, current_title := info.title }))
    ∧ (∀ (env : HistoryNavEnv) (s : BrowserSession) (h : NavHistory)
        (ent : HistEntry) (info : PageInfoJs),
      env.get_history = Except.ok h →
      h.currentIndex < h.entries.length - 1 →
      h.entries[h.currentIndex + 1]? = some ent →
      env.navigate_to_entry = Except.ok () →
      env.eval_page_info = Except.ok info →
      go_forward env s
        = ({ status := "success", url := info.url, title := some info.title,
             error_message := none },
           { s with current_url := info.url, current_title := info.title }))
    ∧ (∀ (env : ReloadEnv) (ignore_cache : Bool) (s : BrowserSession)
        (info : PageInfoJs),
      env.page_reload = Except.ok () → env.eval_page_info = Except.ok info →
      reload_page env ignore_cache s
        = ({ status := "success", url := info.url, title := some info.title,
             error_message := none },
           { s with current_url := info.url, current_title := info.title }))
    ∧ (∀ (env : HistoryNavEnv) (s : BrowserSession),
      (go_back env s).2.navigation_history = s.navigation_history)
    ∧ (∀ (env : HistoryNavEnv) (s : BrowserSession),
      (go_forward env s).2.navigation_history = s.navigation_history)
    ∧ (∀ (env : ReloadEnv) (ignore_cache : Bool) (s : BrowserSession),
      (reload_page env ignore_cache s).2.navigation_history
        = s.navigation_history) := by
  refine ⟨?_, ?_, ?_, ?_, ?_, ?_, ?_⟩
  · intro env url timeout s info h1 h2 h3
    simp [navigate_to_url, h1, h2, h3]
  · intro env s h ent info h1 h2 h3 h4 h5
    simp [go_back, h1, h2, h3, h4, h5]
  · intro env s h ent info h1 h2 h3 h4 h5
    simp [go_forward, h1, h2, h3, h4, h5]
  · intro env ignore_cache s info h1 h2
    simp [reload_page, h1, h2]
  · intro env s
    rcases go_back_session_shape env s with h | ⟨info, h⟩ <;> rw [h]
  · intro env s
    rcases go_forward_session_shape env s with h | ⟨info, h⟩ <;> rw [h]
  · intro env ignore_cache s
    rcases reload_page_session_shape env ignore_cache s with h | ⟨info, h⟩ <;> rw [h]

/-- A navigation environment whose page lands on a concrete URL. -/
def navEnvW : NavigateEnv :=
  { page_enable := Except.ok (), page_navigate := Except.ok (),
    eval_page_info := Except.ok { url := "https://next.example", title := "Next" } }

/-- C8 witness: one successful navigation appends exactly the reported URL,
and a `go_back` on a concrete environment leaves the history untouched. -/
theorem navigation_state_update_witness :
    navigate_to_url navEnvW "https://next.example" 30000 sessionW
      = ({ status := "success", url := "https://next.example",
           title := some "Next", error_message := none },
         { current_url := "https://next.example", current_title := "Next",
           navigation_history := ["https://example.com", "https://next.example"],
           viewport_width := 1280, viewport_height := 720,
           last_screenshot_timestamp := 0 })
    ∧ (go_back histEnvAtStart sessionW).2.navigation_history
        = ["https://example.com"] := by
  constructor
  · have h := navigation_state_update.1 navEnvW "https://next.example" 30000 sessionW
      { url := "https://next.example", title := "Next" } rfl rfl rfl
    simpa [sessionW] using h
  · have h := navigation_state_update.2.2.2.2.1 histEnvAtStart sessionW
    simpa [sessionW] using h

/-- C6: when the selector query succeeds but yields no node (no `nodeId` or
`nodeId = 0`), both `click_element` and `take_element_screenshot` return
status `not_found` with a message naming the selector (and no attached
content), and no exception escapes — the embedded tools are total functions
into plain results. -/
theorem selector_miss_not_found :
    (∀ (env : ClickEnv) (selector : String) (rid : Nat) (node_id : Option Nat),
      env.dom_enable = Except.ok () → env.get_document = Except.ok rid →
      env.query_selector = Except.ok node_id →
      (node_id = none ∨ node_id = some 0) →
      click_element env selector
        = { status := "not_found", selector := selector, element_info := none,
            error_message := some ("Element not found: " ++ selector) })
    ∧ (∀ (env : ElementShotEnv) (selector img_format : String) (rid : Nat)
        (node_id : Option Nat),
      env.dom_enable = Except.ok () → env.get_document = Except.ok rid →
      env.query_selector = Except.ok node_id →
      (node_id = none ∨ node_id = some 0) →
      take_element_screenshot env selector img_format
        = { return_value :=
              { status := "not_found", selector := selector, segments_count := 0,
                element_info := none,
                error_message := some ("Element not found: " ++ selector) },
            content := [] }) := by
  constructor
  · intro env selector rid node_id h1 h2 h3 h4
    rcases h4 with h4 | h4 <;> subst h4 <;> simp [click_element, h1, h2, h3]
  · intro env selector img_format rid node_id h1 h2 h3 h4
    rcases h4 with h4 | h4 <;> subst h4 <;>
      simp [take_element_screenshot, h1, h2, h3]

/-- A click environment whose selector query finds no node. -/
def clickEnvMiss : ClickEnv :=
  { dom_enable := Except.ok (), get_document := Except.ok 1,
    query_selector := Except.ok none, get_box_model := Except.error "unused",
    mouse_pressed := Except.ok (), mouse_released := Except.ok () }

/-- An element-screenshot environment whose selector query finds no node. -/
def elemShotEnvMiss : ElementShotEnv :=
  { dom_enable := Except.ok (), get_document := Except.ok 1,
    query_selector := Except.ok none, get_box_model := Except.error "unused",
    capture := Except.error "unused",
    segmenter := fun _ _ _ => Except.error "unused" }

/-- C6 witness at a concrete missing selector. -/
theorem selector_miss_not_found_witness :
    click_element clickEnvMiss "#missing"
      = { status := "not_found", selector := "#missing", element_info := none,
          error_message := some ("Element not found: " ++ "#missing") }
    ∧ take_element_screenshot elemShotEnvMiss "#missing" "image/png"
      = { return_value :=
            { status := "not_found", selector := "#missing", segments_count := 0,
              element_info := none,
              error_message := some ("Element not found: " ++ "#missing") },
          content := [] } :=
  ⟨selector_miss_not_found.1 clickEnvMiss "#missing" 1 none rfl rfl rfl (Or.inl rfl),
   selector_miss_not_found.2 elemShotEnvMiss "#missing" "image/png" 1 none
     rfl rfl rfl (Or.inl rfl)⟩

/-- C2: every `take_screenshot` invocation attaches at most 20 segments and
reports `segments_count` equal to the attached list's length; when the
segmenter's natural output exceeds 20 the result is marked truncated and
keeps exactly the first 20 segments in order, otherwise it is not marked
truncated and keeps everything. -/
theorem screenshot_segment_cap (env : ScreenshotEnv) (full_page : Bool)
    (img_format : String) (s : BrowserSession) :
    ((take_screenshot env full_page img_format s).1.content.length ≤ 20)
    ∧ ((take_screenshot env full_page img_format s).1.return_value.segments_count
        = (take_screenshot env full_page img_format s).1.content.length)
    ∧ (∀ (image_bytes : List Nat) (segs : List BinaryContent),
        env.capture = Except.ok image_bytes →
        env.segmenter image_bytes 4096 50 img_format = Except.ok segs →
        (20 < segs.length →
          (take_screenshot env full_page img_format s).1.return_value.truncated = true
          ∧ (take_screenshot env full_page img_format s).1.content = segs.take 20)
        ∧ (segs.length ≤ 20 →
          (take_screenshot env full_page img_format s).1.return_value.truncated = false
          ∧ (take_screenshot env full_page img_format s).1.content = segs)) := by
  refine ⟨?_, ?_, ?_⟩
  · rcases env with ⟨cap, seg, now⟩
    cases cap with
    | error e => simp [take_screenshot]
    | ok image_bytes =>
      cases hs : seg image_bytes 4096 50 img_format with
      | error e => simp [take_screenshot, hs]
      | ok segs =>
        by_cases h : segs.length > 20
        · simp only [take_screenshot, hs, h, decide_eq_true_eq, if_true,
            decide_eq_true h, if_pos]
          simp [List.length_take]
        · simp only [take_screenshot, hs]
          have hd : decide (segs.length > 20) = false := by
            simpa using h
          simp [hd]
          omega
  · rcases env with ⟨cap, seg, now⟩
    cases cap with
    | error e => simp [take_screenshot]
    | ok image_bytes =>
      cases hs : seg image_bytes 4096 50 img_format with
      | error e => simp [take_screenshot, hs]
      | ok segs => simp [take_screenshot, hs]
  · intro image_bytes segs h1 h2
    constructor
    · intro hgt
      have hd : decide (segs.length > 20) = true := by simpa using hgt
      simp [take_screenshot, h1, h2, hd]
    · intro hle
      have hd : decide (segs.length > 20) = false := by
        simp
        omega
      simp [take_screenshot, h1, h2, hd]

/-- A screenshot environment whose segmenter naturally produces 25
segments. -/
def shotEnvW : ScreenshotEnv :=
  { capture := Except.ok [7],
    segmenter := fun _ _ _ _ =>
      Except.ok (List.replicate 25 { data := [0], media_type := "image/png" }),
    now := 5 }

/-- C2 witness: 25 natural segments are truncated to the first 20. -/
theorem screenshot_segment_cap_witness :
    (take_screenshot shotEnvW false "image/png" sessionW).1.return_value.truncated = true
    ∧ (take_screenshot shotEnvW false "image/png" sessionW).1.content
      = (List.replicate 25
          ({ data := [0], media_type := "image/png" } : BinaryContent)).take 20
    ∧ (take_screenshot shotEnvW false "image/png" sessionW).1.content.length ≤ 20 := by
  have h := screenshot_segment_cap shotEnvW false "image/png" sessionW
  have h2 := (h.2.2 [7]
    (List.replicate 25 { data := [0], media_type := "image/png" }) rfl rfl).1
    (by simp)
  exact ⟨h2.1, h2.2, h.1⟩

/-- C10: whenever a screenshot tool's result status is not `success`
(error or not-found), the attached content list is empty and the reported
`segments_count` is 0. -/
theorem screenshot_no_payload_without_success :
    (∀ (env : ScreenshotEnv) (full_page : Bool) (img_format : String)
        (s : BrowserSession),
      (take_screenshot env full_page img_format s).1.return_value.status ≠ "success" →
      (take_screenshot env full_page img_format s).1.content = []
      ∧ (take_screenshot env full_page img_format s).1.return_value.segments_count = 0)
    ∧ (∀ (env : ElementShotEnv) (selector img_format : String),
      (take_element_screenshot env selector img_format).return_value.status ≠ "success" →
      (take_element_screenshot env selector img_format).content = []
      ∧ (take_element_screenshot env selector img_format).return_value.segments_count
          = 0) := by
  constructor
  · intro env full_page img_format s hne
    rcases env with ⟨cap, seg, now⟩
    cases cap with
    | error e => simp [take_screenshot]
    | ok image_bytes =>
      cases hs : seg image_bytes 4096 50 img_format with
      | error e => simp [take_screenshot, hs]
      | ok segs =>
        exact absurd (by simp [take_screenshot, hs]) hne
  · intro env selector img_format hne
    rcases env with ⟨de, gd, qs, bm, cap, seg⟩
    cases de with
    | error e => simp [take_element_screenshot, element_shot_error]
    | ok _ =>
    cases gd with
    | error e => simp [take_element_screenshot, element_shot_error]
    | ok rid =>
    cases qs with
    | error e => simp [take_element_screenshot, element_shot_error]
    | ok nid =>
    cases nid with
    | none => simp [take_element_screenshot]
    | some n =>
    cases n with
    | zero => simp [take_element_screenshot]
    | succ k =>
    cases bm with
    | error e => simp [take_element_screenshot, element_shot_error]
    | ok border =>
    cases cap with
    | error e => simp [take_element_screenshot, element_shot_error]
    | ok image_bytes =>
    cases hs : seg image_bytes 4096 img_format with
    | error e => simp [take_element_screenshot, element_shot_error, hs]
    | ok segs =>
      exact absurd (by simp [take_element_screenshot, hs]) hne

/-- C10 witness: a failing capture yields an error result with no content. -/
theorem screenshot_no_payload_without_success_witness :
    (take_screenshot ⟨Except.error "net down", fun _ _ _ _ => Except.error "x", 0⟩
        false "image/png" sessionW).1.content = []
    ∧ (take_element_screenshot elemShotEnvMiss "#missing" "image/png").content
        = [] := by
  constructor
  · exact (screenshot_no_payload_without_success.1
      ⟨Except.error "net down", fun _ _ _ _ => Except.error "x", 0⟩
      false "image/png" sessionW (by simp [take_screenshot])).1
  · exact (screenshot_no_payload_without_success.2 elemShotEnvMiss "#missing"
      "image/png" (by simp [take_element_screenshot, elemShotEnvMiss])).1

/-- `navigate_to_url` never pairs a `success` status with an error
message. -/
theorem navigate_no_err_on_success (env : NavigateEnv) (url : String)
    (timeout : Nat) (s : BrowserSession) :
    (navigate_to_url env url timeout s).1.status = "success" →
    (navigate_to_url env url timeout s).1.error_message = none := by
  rcases env with ⟨pe, pn, ei⟩
  cases pe with
  | error e =>
    cases e <;> intro h <;> simp_all [navigate_to_url, navigate_exc_result]
  | ok _ =>
    cases pn with
    | error e =>
      cases e <;> intro h <;> simp_all [navigate_to_url, navigate_exc_result]
    | ok _ =>
      cases ei with
      | error e =>
        cases e <;> intro h <;> simp_all [navigate_to_url, navigate_exc_result]
      | ok info => intro h; simp [navigate_to_url]

/-- `go_back` never pairs a `success` status with an error message. -/
theorem go_back_no_err_on_success (env : HistoryNavEnv) (s : BrowserSession) :
    (go_back env s).1.status = "success" →
    (go_back env s).1.error_message = none := by
  rcases env with ⟨gh, nte, epi⟩
  cases gh with
  | error e => intro h; simp_all [go_back, nav_error_result]
  | ok history =>
    by_cases hc : history.currentIndex > 0
    · cases hg : history.entries[history.currentIndex - 1]? with
      | none => intro h; simp [go_back, nav_error_result, hc, hg] at h
      | some ent =>
        cases nte with
        | error e => intro h; simp_all [go_back, nav_error_result, hc, hg]
        | ok _ =>
          cases epi with
          | error e => intro h; simp_all [go_back, nav_error_result, hc, hg]
          | ok info => intro h; simp [go_back, hc, hg]
    · intro h; simp_all [go_back, hc]

/-- `go_forward` never pairs a `success` status with an error message. -/
theorem go_forward_no_err_on_success (env : HistoryNavEnv) (s : BrowserSession) :
    (go_forward env s).1.status = "success" →
    (go_forward env s).1.error_message = none := by
  rcases env with ⟨gh, nte, epi⟩
  cases gh with
  | error e => intro h; simp_all [go_forward, nav_error_result]
  | ok history =>
    by_cases hc : history.currentIndex < history.entries.length - 1
    · cases hg : history.entries[history.currentIndex + 1]? with
      | none => intro h; simp [go_forward, nav_error_result, hc, hg] at h
      | some ent =>
        cases nte with
        | error e => intro h; simp_all [go_forward, nav_error_result, hc, hg]
        | ok _ =>
          cases epi with
          | error e => intro h; simp_all [go_forward, nav_error_result, hc, hg]
          | ok info => intro h; simp [go_forward, hc, hg]
    · intro h; simp [go_forward, hc] at h

/-- `reload_page` never pairs a `success` status with an error message. -/
theorem reload_no_err_on_success (env : ReloadEnv) (ignore_cache : Bool)
    (s : BrowserSession) :
    (reload_page env ignore_cache s).1.status = "success" →
    (reload_page env ignore_cache s).1.error_message = none := by
  rcases env with ⟨pr, epi⟩
  cases pr with
  | error e => intro h; simp_all [reload_page, nav_error_result]
  | ok _ =>
    cases epi with
    | error e => intro h; simp_all [reload_page, nav_error_result]
    | ok info => intro h; simp [reload_page]

/-- `click_element` never pairs a `success` status with an error message. -/
theorem click_no_err_on_success (env : ClickEnv) (selector : String) :
    (click_element env selector).status = "success" →
    (click_element env selector).error_message = none := by
  rcases env with ⟨de, gd, qs, bm, mp, mr⟩
  cases de with
  | error e => intro h; simp_all [click_element, click_error_result]
  | ok _ =>
  cases gd with
  | error e => intro h; simp_all [click_element, click_error_result]
  | ok rid =>
  cases qs with
  | error e => intro h; simp_all [click_element, click_error_result]
  | ok nid =>
  cases nid with
  | none => intro h; simp_all [click_element]
  | some n =>
  cases n with
  | zero => intro h; simp_all [click_element]
  | succ k =>
  cases bm with
  | error e => intro h; simp_all [click_element, click_error_result]
  | ok border =>
  cases mp with
  | error e => intro h; simp_all [click_element, click_error_result]
  | ok _ =>
  cases mr with
  | error e => intro h; simp_all [click_element, click_error_result]
  | ok _ => intro h; simp [click_element]

/-- `type_text_insert` never pairs a `success` status with an error
message. -/
theorem type_text_insert_no_err_on_success (env : TypeTextEnv)
    (selector text : String) :
    (type_text_insert env selector text).status = "success" →
    (type_text_insert env selector text).error_message = none := by
  cases hit : env.insert_text with
  | error e => intro h; simp_all [type_text_insert, hit]
  | ok _ => intro h; simp [type_text_insert, hit]

/-- `type_text` never pairs a `success` status with an error message. -/
theorem type_text_no_err_on_success (env : TypeTextEnv) (selector text : String)
    (clear_first : Bool) :
    (type_text env selector text clear_first).status = "success" →
    (type_text env selector text clear_first).error_message = none := by
  unfold type_text
  by_cases hclick : (click_element env.click selector).status = "success"
  · simp only [hclick, if_true]
    cases clear_first with
    | false => exact type_text_insert_no_err_on_success env selector text
    | true =>
      cases him : env.is_mac with
      | error e => intro h; simp_all
      | ok b =>
        cases hke : env.key_events with
        | error e => intro h; simp_all
        | ok _ =>
          simp only []
          exact type_text_insert_no_err_on_success env selector text
  · simp only [hclick, if_false]
    intro h
    exact h.elim

/-- `execute_javascript` never pairs a `success` status with an error
message. -/
theorem execute_javascript_no_err_on_success (env : EvalEnv) (script : String) :
    (execute_javascript env script).status = "success" →
    (execute_javascript env script).error_message = none := by
  cases he : env.evaluate with
  | error e => intro h; simp_all [execute_javascript, he]
  | ok r =>
    cases hd : r.exceptionDetails with
    | some det => intro h; simp_all [execute_javascript, he, hd]
    | none => intro h; simp [execute_javascript, he, hd]

/-- `take_screenshot` never pairs a `success` status with an error
message. -/
theorem take_screenshot_no_err_on_success (env : ScreenshotEnv)
    (full_page : Bool) (img_format : String) (s : BrowserSession) :
    (take_screenshot env full_page img_format s).1.return_value.status = "success" →
    (take_screenshot env full_page img_format s).1.return_value.error_message
      = none := by
  rcases env with ⟨cap, seg, now⟩
  cases cap with
  | error e => intro h; simp_all [take_screenshot]
  | ok image_bytes =>
    cases hs : seg image_bytes 4096 50 img_format with
    | error e => intro h; simp_all [take_screenshot, hs]
    | ok segs => intro h; simp [take_screenshot, hs]

/-- `take_element_screenshot` never pairs a `success` status with an error
message. -/
theorem take_element_screenshot_no_err_on_success (env : ElementShotEnv)
    (selector img_format : String) :
    (take_element_screenshot env selector img_format).return_value.status
      = "success" →
    (take_element_screenshot env selector img_format).return_value.error_message
      = none := by
  rcases env with ⟨de, gd, qs, bm, cap, seg⟩
  cases de with
  | error e => intro h; simp_all [take_element_screenshot, element_shot_error]
  | ok _ =>
  cases gd with
  | error e => intro h; simp_all [take_element_screenshot, element_shot_error]
  | ok rid =>
  cases qs with
  | error e => intro h; simp_all [take_element_screenshot, element_shot_error]
  | ok nid =>
  cases nid with
  | none => intro h; simp_all [take_element_screenshot]
  | some n =>
  cases n with
  | zero => intro h; simp_all [take_element_screenshot]
  | succ k =>
  cases bm with
  | error e => intro h; simp_all [take_element_screenshot, element_shot_error]
  | ok border =>
  cases cap with
  | error e => intro h; simp_all [take_element_screenshot, element_shot_error]
  | ok image_bytes =>
  cases hs : seg image_bytes 4096 img_format with
  | error e => intro h; simp_all [take_element_screenshot, element_shot_error, hs]
  | ok segs => intro h; simp [take_element_screenshot, hs]

/-- C7 counterexample: `get_page_info` (a catalog tool, `tools/state.py`)
has no `try`/`except`, so a failing protocol call is re-raised past the
tool boundary instead of being converted into a status-`error` result —
refuting the claim that no tool ever propagates a raw fault. -/
theorem tool_boundary_counterexample :
    get_page_info { evaluate := Except.error "boom" } sessionW
      = Except.error "boom" := rfl

/-- A click environment whose first protocol call fails. -/
def clickEnvBad : ClickEnv :=
  { dom_enable := Except.error "cdp down", get_document := Except.ok 1,
    query_selector := Except.ok none, get_box_model := Except.error "x",
    mouse_pressed := Except.ok (), mouse_released := Except.ok () }

/-- C7 (amended): every status-returning tool (navigation, interaction and
screenshot tools) pairs status `success` with no error message, and failing
lower-level calls are converted at the tool boundary into a status-`error`
result carrying the exception's text (`TimeoutError` in `navigate_to_url`
becoming status `timeout`); the plain info tools such as `get_page_info`
are the exception and propagate the fault. -/
theorem tool_result_invariant :
    (∀ (env : NavigateEnv) (url : String) (timeout : Nat) (s : BrowserSession),
      (navigate_to_url env url timeout s).1.status = "success" →
      (navigate_to_url env url timeout s).1.error_message = none)
    ∧ (∀ (env : HistoryNavEnv) (s : BrowserSession),
      (go_back env s).1.status = "success" →
      (go_back env s).1.error_message = none)
    ∧ (∀ (env : HistoryNavEnv) (s : BrowserSession),
      (go_forward env s).1.status = "success" →
      (go_forward env s).1.error_message = none)
    ∧ (∀ (env : ReloadEnv) (ignore_cache : Bool) (s : BrowserSession),
      (reload_page env ignore_cache s).1.status = "success" →
      (reload_page env ignore_cache s).1.error_message = none)
    ∧ (∀ (env : ClickEnv) (selector : String),
      (click_element env selector).status = "success" →
      (click_element env selector).error_message = none)
    ∧ (∀ (env : TypeTextEnv) (selector text : String) (clear_first : Bool),
      (type_text env selector text clear_first).status = "success" →
      (type_text env selector text clear_first).error_message = none)
    ∧ (∀ (env : EvalEnv) (script : String),
      (execute_javascript env script).status = "success" →
      (execute_javascript env script).error_message = none)
    ∧ (∀ (env : ScreenshotEnv) (full_page : Bool) (img_format : String)
        (s : BrowserSession),
      (take_screenshot env full_page img_format s).1.return_value.status = "success" →
      (take_screenshot env full_page img_format s).1.return_value.error_message = none)
    ∧ (∀ (env : ElementShotEnv) (selector img_format : String),
      (take_element_screenshot env selector img_format).return_value.status = "success" →
      (take_element_screenshot env selector img_format).return_value.error_message
        = none)
    ∧ (∀ (env : ClickEnv) (selector e : String),
      env.dom_enable = Except.error e →
      click_element env selector = click_error_result selector e)
    ∧ (∀ (env : ClickEnv) (selector : String) (rid : Nat) (e : String),
      env.dom_enable = Except.ok () → env.get_document = Except.ok rid →
      env.query_selector = Except.error e →
      click_element env selector = click_error_result selector e)
    ∧ (∀ (env : NavigateEnv) (url : String) (timeout : Nat) (s : BrowserSession)
        (m : String),
      env.page_enable = Except.error (PyExc.exc m) →
      navigate_to_url env url timeout s
        = ({ status := "error", url := url, title := none,
             error_message := some m }, s))
    ∧ (∀ (env : HistoryNavEnv) (s : BrowserSession) (e : String),
      env.get_history = Except.error e →
      go_back env s = (nav_error_result s e, s))
    ∧ (∀ (env : ScreenshotEnv) (full_page : Bool) (img_format : String)
        (s : BrowserSession) (e : String),
      env.capture = Except.error e →
      take_screenshot env full_page img_format s
        = ({ return_value :=
              { status := "error", url := s.current_url, segments_count := 0,
                truncated := false, format := none, full_page := none,
                error_message := some e },
             content := [] }, s))
    ∧ (∀ (env : EvalEnv) (script e : String),
      env.evaluate = Except.error e →
      execute_javascript env script
        = { status := "error", result := none, error_message := some e }) := by
  refine ⟨navigate_no_err_on_success, go_back_no_err_on_success,
    go_forward_no_err_on_success, reload_no_err_on_success,
    click_no_err_on_success, type_text_no_err_on_success,
    execute_javascript_no_err_on_success, take_screenshot_no_err_on_success,
    take_element_screenshot_no_err_on_success, ?_, ?_, ?_, ?_, ?_, ?_⟩
  · intro env selector e h
    simp [click_element, h]
  · intro env selector rid e h1 h2 h3
    simp [click_element, h1, h2, h3]
  · intro env url timeout s m h
    simp [navigate_to_url, h, navigate_exc_result]
  · intro env s e h
    simp [go_back, h]
  · intro env full_page img_format s e h
    simp [take_screenshot, h]
  · intro env script e h
    simp [execute_javascript, h]

/-- C7 (amended) witness: a failing first call in `click_element` converts
to a status-`error` result, and a concrete successful screenshot carries no
error message. -/
theorem tool_result_invariant_witness :
    click_element clickEnvBad "a" = click_error_result "a" "cdp down"
    ∧ (take_screenshot shotEnvW false "image/png" sessionW).1.return_value.error_message
        = none := by
  constructor
  · exact tool_result_invariant.2.2.2.2.2.2.2.2.2.1 clickEnvBad "a" "cdp down" rfl
  · exact tool_result_invariant.2.2.2.2.2.2.2.1 shotEnvW false "image/png" sessionW
      (by rfl)
